import Mathlib

/-!
Verification of the `learning-timer` repository (src/app/mytimer.class.js).

The source file concatenates three revisions of the `MyTimer` class; the last
revision (the one the specification adopts, with the guarded `changeStep`, the
`cumulateEllapsed`-based `stop`/`pause` and the try/catch `toggle`) is the one
embedded here.  The private `Defaults` object (the TimerState of the spec) is
not part of the sources; its members used by `MyTimer` are modelled from the
specification and carry a doc comment saying so.

Wall-clock time is passed explicitly: every operation receives the value that
`Date.now()` would return at the moment of the call.  The periodic scheduler
(`setInterval` / `clearInterval`) is modelled by a list of live registration
identifiers plus a fresh-identifier counter; a tick of a live registration is
the explicit application of `publishTime`.  Operations return the list of
event names they publish, in publication order, together with their
JS return value (`this` mapped to `true`, `false` to `false`).
-/

/-- Run states of the timer: the spec's enum {idle, running, paused, stopped};
`is_counting` / `is_paused` / `is_stopped` of the source correspond to the
last three states. -/
inductive RunState
  | idle
  | running
  | paused
  | stopped
deriving DecidableEq

/-- The event names published by MyTimer. -/
inductive Ev
  | sessionStarted
  | sessionStopped
  | sessionPaused
  | currentTime
  | sessionChanged
  | timerReset
deriving DecidableEq

/-- The timer state: the spec's TimerState fields plus the scheduling
bookkeeping (`countDown` handle, live registrations, fresh-id counter). -/
structure Timer where
  sessionLengthMs : Nat
  intervalMs : Nat
  accumulatedMs : Nat
  startEpochMs : Nat
  nowEpochMs : Nat
  runState : RunState
  countDown : Option Nat
  intervals : List Nat
  nextId : Nat
deriving DecidableEq

/-- Modelled from the spec: the initial TimerState produced by the missing
`Defaults` constructor — `runState = idle`, no banked time, no registration;
session and interval lengths are the (caller-dependent) defaults. -/
def initTimer (sessionMs intervalMs : Nat) : Timer :=
  { sessionLengthMs := sessionMs
    intervalMs := intervalMs
    accumulatedMs := 0
    startEpochMs := 0
    nowEpochMs := 0
    runState := RunState.idle
    countDown := none
    intervals := []
    nextId := 0 }

/-- Modelled from the spec: the missing `Defaults.ellapsed` getter, the spec's
`elapsedMs()`: accumulated time plus the live delta when running, clamped to
`[0, sessionLengthMs]`.  `t` is the current wall-clock time. -/
def ellapsed (t : Nat) (s : Timer) : Nat :=
  min (s.accumulatedMs + (if s.runState = RunState.running then t - s.startEpochMs else 0))
    s.sessionLengthMs

/-- Modelled from the spec: the missing `Defaults.isEllapsed` getter, the
spec's `isSessionComplete()`: `elapsedMs() >= sessionLengthMs`. -/
def isEllapsed (t : Nat) (s : Timer) : Bool :=
  s.sessionLengthMs ≤ ellapsed t s

/-- Modelled from the spec: the missing `Defaults.cumulateEllapsed()` — bank
the live delta `now - startEpochMs` into `accumulatedMs` when running (the
spec's `markPaused` banking step), and record the sampled time. -/
def cumulateEllapsed (t : Nat) (s : Timer) : Timer :=
  if s.runState = RunState.running then
    { s with accumulatedMs := s.accumulatedMs + (t - s.startEpochMs), nowEpochMs := t }
  else
    { s with nowEpochMs := t }

/-- Modelled from the spec: the missing `Defaults.zeroTimes()` used by the
resume branch of `start` — record a fresh segment start without touching the
banked time ("if the timer has been paused one cannot change the start time"
of the elapsed accounting: resume keeps banked elapsed). -/
def zeroTimes (t : Nat) (s : Timer) : Timer :=
  { s with startEpochMs := t, nowEpochMs := t }

/-- Modelled from the spec: the missing `Defaults.reset()` — the spec's
`resetTimes()`: `accumulatedMs = 0`, `startEpochMs = now`; does not change
`runState`. -/
def defaultsReset (t : Nat) (s : Timer) : Timer :=
  { s with accumulatedMs := 0, startEpochMs := t, nowEpochMs := t }

/-- Modelled from the spec: the missing `is_counting` setter — the spec's
`markRunning()` state change: `runState = running`. -/
def setCounting (s : Timer) : Timer :=
  { s with runState := RunState.running }

/-- Modelled from the spec: the missing `is_paused` setter — the spec's
`markPaused()` state change: `runState = paused`. -/
def setPaused (s : Timer) : Timer :=
  { s with runState := RunState.paused }

/-- Modelled from the spec: the missing `is_stopped` setter — the spec's
`markStopped()` finish: clamps `accumulatedMs` to `sessionLengthMs` and sets
`runState = stopped`. -/
def setStopped (s : Timer) : Timer :=
  { s with runState := RunState.stopped
           accumulatedMs := min s.accumulatedMs s.sessionLengthMs }

/-- `setInterval(publishTime, interval)` followed by storing the handle in
`countDown`: creates one fresh live registration and records its id. -/
def setIntervalReg (s : Timer) : Timer :=
  { s with intervals := s.intervals ++ [s.nextId]
           countDown := some s.nextId
           nextId := s.nextId + 1 }

/-- `if (countDown) clearInterval(countDown)`: drops the stored registration
id from the live registrations (a no-op when the id is stale or absent). -/
def clearCountDown (s : Timer) : Timer :=
  match s.countDown with
  | some i => { s with intervals := s.intervals.erase i }
  | none => s

/-- `MyTimer.reset()`: calls the private object's `reset()` and publishes
`timerReset`. -/
def resetT (t : Nat) (s : Timer) : Timer × List Ev :=
  (defaultsReset t s, [Ev.timerReset])

/-- `MyTimer.start()` (last revision): if already counting, return `false`
with no effect.  Otherwise: if not paused call `this.reset()` (which
publishes `timerReset`), else `zeroTimes()`; set counting; register the
periodic `publishTime` action; publish `sessionStarted`; return `this`. -/
def startT (t : Nat) (s : Timer) : Timer × List Ev × Bool :=
  if s.runState = RunState.running then
    (s, [], false)
  else if s.runState = RunState.paused then
    (setIntervalReg (setCounting (zeroTimes t s)), [Ev.sessionStarted], true)
  else
    (setIntervalReg (setCounting (defaultsReset t s)), [Ev.timerReset, Ev.sessionStarted], true)

/-- `MyTimer.stop()` (last revision): no-op returning `false` unless counting
or paused; otherwise `cumulateEllapsed()`, `is_stopped = true`, clear the
registration, publish `sessionStopped`, return `this`. -/
def stopT (t : Nat) (s : Timer) : Timer × List Ev × Bool :=
  if s.runState = RunState.running ∨ s.runState = RunState.paused then
    (clearCountDown (setStopped (cumulateEllapsed t s)), [Ev.sessionStopped], true)
  else
    (s, [], false)

/-- `MyTimer.pause()` (last revision): no-op returning `false` unless
counting; otherwise `cumulateEllapsed()`, `is_paused = true`, clear the
registration, publish `sessionPaused`, return `this`. -/
def pauseT (t : Nat) (s : Timer) : Timer × List Ev × Bool :=
  if s.runState = RunState.running then
    (clearCountDown (setPaused (cumulateEllapsed t s)), [Ev.sessionPaused], true)
  else
    (s, [], false)

/-- The periodic `publishTime` callback registered by `start` (last
revision): if the session is not complete, sample `now` and publish
`currentTime`; otherwise call `this.stop()`. -/
def publishTime (t : Nat) (s : Timer) : Timer × List Ev :=
  if isEllapsed t s then
    ((stopT t s).1, (stopT t s).2.1)
  else
    ({ s with nowEpochMs := t }, [Ev.currentTime])

/-- Options object accepted by `changeStep`: `sign` and `increment` are
`none` when absent (JS `undefined`). -/
structure StepOptions where
  step : String
  value : Nat
  units : String
  sign : Option Int
  increment : Option Int
deriving DecidableEq

/-- `if (sign !== 1 && sign !== -1) sign = 1`. -/
def normSign (o : Option Int) : Int :=
  match o with
  | some z => if z = 1 ∨ z = -1 then z else 1
  | none => 1

/-- `if (increment !== 0 && increment !== 1) increment = 0`. -/
def normIncrement (o : Option Int) : Int :=
  match o with
  | some z => if z = 0 ∨ z = 1 then z else 0
  | none => 0

/-- Modelled from the spec: the missing duration-conversion collaborator
`convert(value, unit) → milliseconds`, failing (`InvalidUnit`) on an
unrecognized unit. -/
def convertMs (value : Nat) (units : String) : Option Nat :=
  if units = "milliseconds" then some value
  else if units = "seconds" then some (value * 1000)
  else if units = "minutes" then some (value * 60000)
  else if units = "hours" then some (value * 3600000)
  else none

/-- Modelled from the spec: the missing `Defaults.steps` map — the recognized
step names are `session` and `interval`. -/
def stepsHas (step : String) : Bool :=
  step = "session" || step = "interval"

/-- Modelled from the spec: the missing `_this[step]` getter — the current
millisecond value of the named step. -/
def stepVal (s : Timer) (step : String) : Nat :=
  if step = "session" then s.sessionLengthMs else s.intervalMs

/-- The new step value computed by `changeStep` (last revision):
`convert(options) * sign + currentValue * increment`, clamped below at 0. -/
def newStepValue (opts : StepOptions) (s : Timer) : Option Int :=
  (convertMs opts.value opts.units).map (fun ms =>
    let v : Int := (ms : Int) * normSign opts.sign +
      (stepVal s opts.step : Int) * normIncrement opts.increment
    if v < 0 then 0 else v)

/-- `MyTimer.changeStep(options)` (last revision).  Throws (`Except.error`)
when the step name is unrecognized (and when the conversion collaborator
throws).  Returns `false` with no effect when `sign` is negative and the
current step value is not positive.  Otherwise computes the clamped new
value; for `session`, commits and publishes `sessionChanged` then
`currentTime` only when the timer is neither counting nor paused, or the new
value exceeds the elapsed time; in every such case it returns `true`. -/
def changeStepT (opts : StepOptions) (t : Nat) (s : Timer) :
    Except Unit (Timer × List Ev × Bool) :=
  if stepsHas opts.step then
    if 0 < normSign opts.sign ∨ (normSign opts.sign < 0 ∧ 0 < stepVal s opts.step) then
      match newStepValue opts s with
      | none => Except.error ()
      | some v =>
        if opts.step = "session" then
          if (s.runState ≠ RunState.running ∧ s.runState ≠ RunState.paused) ∨
              ((ellapsed t s : Int) < v) then
            Except.ok ({ s with sessionLengthMs := v.toNat },
              [Ev.sessionChanged, Ev.currentTime], true)
          else
            Except.ok (s, [], true)
        else
          Except.ok (s, [], true)
    else
      Except.ok (s, [], false)
  else
    Except.error ()

/-- The source default argument of `toggle` is the method name `stop`. -/
def toggleDefaultMethod : String := "stop"

/-- `this[method]()` inside `toggle`: dynamic dispatch over MyTimer's
zero-argument state-machine methods.  Any other name (an unknown property, or
`changeStep`, which throws on its missing options object before mutating
anything) raises a TypeError, modelled as `Except.error`. -/
def callMethod (m : String) (t : Nat) (s : Timer) :
    Except Unit (Timer × List Ev × Bool) :=
  if m = "start" then Except.ok (startT t s)
  else if m = "stop" then Except.ok (stopT t s)
  else if m = "pause" then Except.ok (pauseT t s)
  else if m = "reset" then Except.ok ((resetT t s).1, (resetT t s).2, false)
  else Except.error ()

/-- `MyTimer.toggle(method)` (last revision): inside a try/catch, invoke
`this[method]()` and, when the result is falsy, invoke `this.start()`; a
thrown error is caught and only logged, so `toggle` always returns
normally. -/
def toggleT (m : String) (t : Nat) (s : Timer) : Timer × List Ev :=
  match callMethod m t s with
  | Except.ok (s1, evs, b) =>
    if b then (s1, evs)
    else ((startT t s1).1, evs ++ (startT t s1).2.1)
  | Except.error _ => (s, [])

/-- One per-event listener array of the event channel: `subscribe` pushes an
entry and hands back its index; `remove` deletes the slot (a JS `delete`,
leaving a hole); `publish` walks the array in index order skipping holes.
An entry is a listener identity paired with the method name. -/
def subscribeL (ls : List (Option (Nat × String))) (listener : Nat) (method : String) :
    List (Option (Nat × String)) × Nat :=
  (ls ++ [some (listener, method)], ls.length)

/-- `remove()` of the subscription handle with index `i`:
`delete listeners[eventName][i]`. -/
def removeSub (ls : List (Option (Nat × String))) (i : Nat) :
    List (Option (Nat × String)) :=
  ls.set i none

/-- The invocation sequence of `publish(eventName)`: the registered entries
in index (registration) order, removed slots skipped (`forEach` skips
holes). -/
def publishSeq (ls : List (Option (Nat × String))) : List (Nat × String) :=
  ls.filterMap id

deriving instance DecidableEq for Except

/-- States reachable from a freshly constructed timer through the public
operations (ticks of the registered periodic action included). -/
inductive Reach : Timer → Prop
  | init (sessionMs intervalMs : Nat) : Reach (initTimer sessionMs intervalMs)
  | start (t : Nat) {s : Timer} : Reach s → Reach (startT t s).1
  | stop (t : Nat) {s : Timer} : Reach s → Reach (stopT t s).1
  | pause (t : Nat) {s : Timer} : Reach s → Reach (pauseT t s).1
  | reset (t : Nat) {s : Timer} : Reach s → Reach (resetT t s).1
  | tick (t : Nat) {s : Timer} : Reach s → Reach (publishTime t s).1
  | change (opts : StepOptions) (t : Nat) {s : Timer} {r : Timer × List Ev × Bool} :
      Reach s → changeStepT opts t s = Except.ok r → Reach r.1

/-- Registration invariant: a running timer owns exactly the one live
registration recorded in `countDown`; a timer that is not running owns
none. -/
def RegInv (s : Timer) : Prop :=
  (s.runState = RunState.running → ∃ i, s.countDown = some i ∧ s.intervals = [i]) ∧
  (s.runState ≠ RunState.running → s.intervals = [])

/-- A concrete fresh timer: session 1000 ms, interval 100 ms. -/
def cInit : Timer := initTimer 1000 100

/-- The concrete timer `cInit` started at wall-clock time 0. -/
def cRunning : Timer := (startT 0 cInit).1

/-- Concrete `changeStep` options shrinking the session to 300 ms. -/
def cDropOpts : StepOptions :=
  { step := "session", value := 300, units := "milliseconds", sign := some 1, increment := some 0 }

/-- Concrete `changeStep` options with an unrecognized step name. -/
def cBadOpts : StepOptions :=
  { step := "laps", value := 5, units := "milliseconds", sign := none, increment := none }

/-- Concrete `changeStep` options decrementing the session by 5 ms. -/
def cDecOpts : StepOptions :=
  { step := "session", value := 5, units := "milliseconds", sign := some (-1), increment := some 0 }

/-- A concrete fresh timer whose session length is 0 ms. -/
def cZeroSession : Timer := initTimer 0 100

theorem regInv_initTimer (sessionMs intervalMs : Nat) : RegInv (initTimer sessionMs intervalMs) := by
  constructor <;> intro h <;> simp [initTimer] at h ⊢

theorem regInv_startT (t : Nat) (s : Timer) (h : RegInv s) : RegInv (startT t s).1 := by
  by_cases hr : s.runState = RunState.running
  · simpa [startT, hr] using h
  · have hiv : s.intervals = [] := h.2 hr
    by_cases hp : s.runState = RunState.paused <;>
      simp [startT, hr, hp, setIntervalReg, setCounting, zeroTimes, defaultsReset, RegInv, hiv]

theorem regInv_stopT (t : Nat) (s : Timer) (h : RegInv s) : RegInv (stopT t s).1 := by
  by_cases hc : s.runState = RunState.running ∨ s.runState = RunState.paused
  · rcases hc with hr | hp
    · obtain ⟨i, hcd, hiv⟩ := h.1 hr
      simp [stopT, hr, clearCountDown, setStopped, cumulateEllapsed, hcd, hiv, RegInv]
    · have hr : s.runState ≠ RunState.running := by simp [hp]
      have hiv : s.intervals = [] := h.2 hr
      cases hcd : s.countDown <;>
        simp [stopT, hp, hr, clearCountDown, setStopped, cumulateEllapsed, hcd, hiv, RegInv]
  · simpa [stopT, hc] using h

theorem regInv_pauseT (t : Nat) (s : Timer) (h : RegInv s) : RegInv (pauseT t s).1 := by
  by_cases hr : s.runState = RunState.running
  · obtain ⟨i, hcd, hiv⟩ := h.1 hr
    simp [pauseT, hr, clearCountDown, setPaused, cumulateEllapsed, hcd, hiv, RegInv]
  · simpa [pauseT, hr] using h

theorem regInv_resetT (t : Nat) (s : Timer) (h : RegInv s) : RegInv (resetT t s).1 := by
  simpa [resetT, defaultsReset, RegInv] using h

theorem regInv_publishTime (t : Nat) (s : Timer) (h : RegInv s) : RegInv (publishTime t s).1 := by
  by_cases he : isEllapsed t s
  · simpa [publishTime, he] using regInv_stopT t s h
  · simpa [publishTime, he, RegInv] using h

/-- A successful `changeStep` changes at most the session length. -/
theorem changeStepT_state (opts : StepOptions) (t : Nat) (s : Timer)
    (r : Timer × List Ev × Bool) (hok : changeStepT opts t s = Except.ok r) :
    r.1 = { s with sessionLengthMs := r.1.sessionLengthMs } := by
  unfold changeStepT at hok
  split at hok
  · split at hok
    · cases hv : newStepValue opts s with
      | none => rw [hv] at hok; cases hok
      | some v =>
        rw [hv] at hok
        simp only at hok
        split at hok
        · split at hok
          · cases hok; rfl
          · cases hok; rfl
        · cases hok; rfl
    · cases hok; rfl
  · cases hok

theorem regInv_changeStepT (opts : StepOptions) (t : Nat) (s : Timer)
    (r : Timer × List Ev × Bool) (hok : changeStepT opts t s = Except.ok r)
    (h : RegInv s) : RegInv r.1 := by
  rw [changeStepT_state opts t s r hok]
  exact h

theorem reach_regInv {s : Timer} (h : Reach s) : RegInv s := by
  induction h with
  | init sessionMs intervalMs => exact regInv_initTimer sessionMs intervalMs
  | start t _ ih => exact regInv_startT t _ ih
  | stop t _ ih => exact regInv_stopT t _ ih
  | pause t _ ih => exact regInv_pauseT t _ ih
  | reset t _ ih => exact regInv_resetT t _ ih
  | tick t _ ih => exact regInv_publishTime t _ ih
  | change opts t _ hok ih => exact regInv_changeStepT opts t _ _ hok ih

/-- What `stop` does from an active (running or paused) state: publishes
`sessionStopped` exactly once, marks the state stopped, and leaves no live
registration. -/
theorem stopT_effect (t : Nat) (s : Timer) (h : RegInv s)
    (hact : s.runState = RunState.running ∨ s.runState = RunState.paused) :
    (stopT t s).2.1 = [Ev.sessionStopped] ∧
    (stopT t s).1.runState = RunState.stopped ∧
    (stopT t s).1.intervals = [] := by
  rcases hact with hr | hp
  · obtain ⟨i, hcd, hiv⟩ := h.1 hr
    simp [stopT, hr, clearCountDown, setStopped, cumulateEllapsed, hcd, hiv]
  · have hr : s.runState ≠ RunState.running := by simp [hp]
    have hiv : s.intervals = [] := h.2 hr
    cases hcd : s.countDown <;>
      simp [stopT, hp, hr, clearCountDown, setStopped, cumulateEllapsed, hcd, hiv]

/-- Setting the slot just past an existing list inside an appended singleton
replaces that singleton. -/
theorem set_append_singleton {α : Type} (ls : List α) (a b : α) :
    (ls ++ [a]).set ls.length b = ls ++ [b] := by
  induction ls with
  | nil => rfl
  | cons x xs ih => simp [List.set, ih]

/-- C9: `publish` invokes the registered method on every currently registered
listener in registration order, skipping removed entries; a registration
removed through its handle before any publish is never invoked: subscribing
appends the entry to the invocation sequence, and removing that subscription
restores the previous invocation sequence. -/
theorem publish_registration_order (ls : List (Option (Nat × String))) (l : Nat) (m : String) :
    publishSeq (subscribeL ls l m).1 = publishSeq ls ++ [(l, m)] ∧
    publishSeq (removeSub (subscribeL ls l m).1 (subscribeL ls l m).2) = publishSeq ls := by
  constructor
  · simp [publishSeq, subscribeL, List.filterMap_append]
  · simp [publishSeq, subscribeL, removeSub, set_append_singleton, List.filterMap_append]

/-- C7: `changeStep` with an unrecognized step name throws (surfaced to the
caller as `Except.error`, never swallowed), so no step value is changed. -/
theorem changeStep_unrecognized_throws (opts : StepOptions) (t : Nat) (s : Timer)
    (h : stepsHas opts.step = false) :
    changeStepT opts t s = Except.error () := by
  simp [changeStepT, h]

/-- Witness for C7 at the concrete options `cBadOpts` (step name `laps`). -/
theorem changeStep_unrecognized_throws_witness :
    stepsHas cBadOpts.step = false ∧ changeStepT cBadOpts 0 cInit = Except.error () :=
  ⟨by decide, changeStep_unrecognized_throws cBadOpts 0 cInit (by decide)⟩

/-- C10: a `changeStep` with a recognized step, `sign = -1` and a current
step value of 0 returns `false` with no mutation and no published event,
whatever the supplied value and increment. -/
theorem changeStep_decrement_on_zero (opts : StepOptions) (t : Nat) (s : Timer)
    (h1 : stepsHas opts.step = true)
    (h2 : opts.sign = some (-1))
    (h3 : stepVal s opts.step = 0) :
    changeStepT opts t s = Except.ok (s, [], false) := by
  have hs : normSign opts.sign = -1 := by rw [h2]; rfl
  simp [changeStepT, h1, hs, h3]

/-- Witness for C10: decrementing the session of a timer whose session length
is 0 is a silent `false` no-op. -/
theorem changeStep_decrement_on_zero_witness :
    stepVal cZeroSession cDecOpts.step = 0 ∧
    changeStepT cDecOpts 0 cZeroSession = Except.ok (cZeroSession, [], false) :=
  ⟨by decide, changeStep_decrement_on_zero cDecOpts 0 cZeroSession (by decide) rfl (by decide)⟩

/-- C8: `toggle` invokes the named method; when the call reports a no-op
(falsy result) it invokes `start()` on the resulting state instead; a thrown
error is caught and reported, never propagated: `toggle` returns normally
with the state unchanged. -/
theorem toggle_spec (m : String) (t : Nat) (s : Timer) (s1 : Timer) (evs : List Ev) (b : Bool) :
    (callMethod m t s = Except.error () → toggleT m t s = (s, [])) ∧
    (callMethod m t s = Except.ok (s1, evs, b) →
      toggleT m t s = if b then (s1, evs) else ((startT t s1).1, evs ++ (startT t s1).2.1)) := by
  constructor
  · intro h
    simp [toggleT, h]
  · intro h
    cases b <;> simp [toggleT, h]

/-- Witness for C8: toggling with an unknown method name on the concrete
fresh timer is caught and leaves the timer untouched. -/
theorem toggle_spec_witness :
    toggleT "frobnicate" 7 cInit = (cInit, []) :=
  (toggle_spec "frobnicate" 7 cInit cInit [] false).1 (by decide)

/-- C1: from an idle or stopped timer, `start(); advance a; pause();
advance b; start(); advance c` yields `elapsedMs() = a + c` (within the
session length): the paused interval `b` contributes nothing, because pause
banks the live delta and resume records a fresh segment start. -/
theorem pause_resume_accounting (s : Timer) (t0 a b c : Nat)
    (h1 : s.runState = RunState.idle ∨ s.runState = RunState.stopped)
    (h2 : a + c ≤ s.sessionLengthMs) :
    ellapsed (t0 + a + b + c)
      (startT (t0 + a + b) (pauseT (t0 + a) (startT t0 s).1).1).1 = a + c := by
  rcases h1 with h | h <;>
    simp [startT, pauseT, ellapsed, setIntervalReg, setCounting, defaultsReset, zeroTimes,
      cumulateEllapsed, setPaused, clearCountDown, h] <;> omega

/-- Witness for C1: the concrete fresh timer, started at 0, paused at 3,
resumed at 10, read at 14, shows 7 elapsed milliseconds. -/
theorem pause_resume_accounting_witness :
    ellapsed (0 + 3 + 7 + 4) (startT (0 + 3 + 7) (pauseT (0 + 3) (startT 0 cInit).1).1).1 = 3 + 4 :=
  pause_resume_accounting cInit 0 3 7 4 (Or.inl (by decide)) (by decide)

/-- C6: stopping a running timer whose elapsed time would exceed the session
length clamps the banked time: afterwards the elapsed time equals exactly
`sessionLengthMs`, at any later reading. -/
theorem stop_clamps (t u : Nat) (s : Timer)
    (hrun : s.runState = RunState.running)
    (hex : s.sessionLengthMs ≤ s.accumulatedMs + (t - s.startEpochMs)) :
    ellapsed u (stopT t s).1 = s.sessionLengthMs := by
  cases hcd : s.countDown <;>
    simp [stopT, hrun, cumulateEllapsed, setStopped, clearCountDown, ellapsed, hcd] <;> omega

/-- Witness for C6: stopping the concrete running timer at time 1500 (past
its 1000 ms session) leaves exactly 1000 ms elapsed. -/
theorem stop_clamps_witness :
    ellapsed 0 (stopT 1500 cRunning).1 = cRunning.sessionLengthMs :=
  stop_clamps 1500 0 cRunning (by decide) (by decide)

/-- C3: calling `start()` on a timer that is already running returns `false`,
publishes nothing, changes nothing, and the timer still owns exactly one live
periodic registration. -/
theorem start_reentrant (t : Nat) (s : Timer) (hr : Reach s)
    (hrun : s.runState = RunState.running) :
    startT t s = (s, [], false) ∧ s.intervals.length = 1 := by
  refine ⟨by simp [startT, hrun], ?_⟩
  obtain ⟨i, _, hiv⟩ := (reach_regInv hr).1 hrun
  simp [hiv]

/-- Witness for C3: a second `start` on the concretely started timer is a
`false` no-op and one registration stays live. -/
theorem start_reentrant_witness :
    startT 7 cRunning = (cRunning, [], false) ∧ cRunning.intervals.length = 1 :=
  start_reentrant 7 cRunning (Reach.start 0 (Reach.init 1000 100)) (by decide)

/-- C4: on a tick of the periodic action for a running timer: if the session
is complete, the timer is stopped — the tick publishes exactly
`sessionStopped` (no `currentTime`), the state becomes stopped, and no live
registration remains, so no further tick can fire; otherwise the tick samples
the current time and publishes exactly `currentTime`. -/
theorem tick_complete_or_publish (t : Nat) (s : Timer) (hr : Reach s)
    (hrun : s.runState = RunState.running) :
    (isEllapsed t s = true →
      (publishTime t s).2 = [Ev.sessionStopped] ∧
      (publishTime t s).1.runState = RunState.stopped ∧
      (publishTime t s).1.intervals = []) ∧
    (isEllapsed t s = false →
      publishTime t s = ({ s with nowEpochMs := t }, [Ev.currentTime])) := by
  constructor
  · intro he
    simpa [publishTime, he] using stopT_effect t s (reach_regInv hr) (Or.inl hrun)
  · intro he
    simp [publishTime, he]

/-- Witness for C4: a tick at time 500 on the concrete running 1000 ms timer
is not complete and publishes `currentTime`. -/
theorem tick_complete_or_publish_witness :
    publishTime 500 cRunning = ({ cRunning with nowEpochMs := 500 }, [Ev.currentTime]) :=
  (tick_complete_or_publish 500 cRunning (Reach.start 0 (Reach.init 1000 100))
    (by decide)).2 (by decide)

/-- C5: `stop()` on a timer that is neither running nor paused is a no-op
returning `false` with no event; on a running or paused timer it publishes
`sessionStopped` exactly once, marks the state stopped, and cancels the
periodic registration (none remains live). -/
theorem stop_noop_or_stops (t : Nat) (s : Timer) (hr : Reach s) :
    (¬(s.runState = RunState.running ∨ s.runState = RunState.paused) →
      stopT t s = (s, [], false)) ∧
    ((s.runState = RunState.running ∨ s.runState = RunState.paused) →
      (stopT t s).2.1 = [Ev.sessionStopped] ∧
      (stopT t s).1.runState = RunState.stopped ∧
      (stopT t s).1.intervals = []) := by
  constructor
  · intro h
    simp [stopT, h]
  · intro h
    exact stopT_effect t s (reach_regInv hr) h

/-- Witness for C5: stopping the concrete running timer publishes exactly
`sessionStopped`, stops it and leaves no registration. -/
theorem stop_noop_or_stops_witness :
    (stopT 500 cRunning).2.1 = [Ev.sessionStopped] ∧
    (stopT 500 cRunning).1.runState = RunState.stopped ∧
    (stopT 500 cRunning).1.intervals = [] :=
  (stop_noop_or_stops 500 cRunning (Reach.start 0 (Reach.init 1000 100))).2 (Or.inl (by decide))

/-- C2 (amended): while the timer is running or paused and the
decrement-on-zero guard passes, the new session value is committed (with
`sessionChanged` then `currentTime`) exactly when it is strictly greater
than the elapsed time; otherwise the state is unchanged and no event is
published — but the call returns `true`, not `false`, in that silently
dropped case. -/
theorem changeStep_session_guard (opts : StepOptions) (t : Nat) (s : Timer) (v : Int)
    (r : Timer × List Ev × Bool)
    (hstep : opts.step = "session")
    (hact : s.runState = RunState.running ∨ s.runState = RunState.paused)
    (hguard : 0 < normSign opts.sign ∨ 0 < s.sessionLengthMs)
    (hv : newStepValue opts s = some v)
    (hok : changeStepT opts t s = Except.ok r) :
    (v ≤ (ellapsed t s : Int) → r = (s, [], true)) ∧
    ((ellapsed t s : Int) < v →
      r = ({ s with sessionLengthMs := v.toNat }, [Ev.sessionChanged, Ev.currentTime], true)) := by
  have hsh : stepsHas opts.step = true := by simp [stepsHas, hstep]
  have hsv : stepVal s opts.step = s.sessionLengthMs := by simp [stepVal, hstep]
  have hns : normSign opts.sign = 1 ∨ normSign opts.sign = -1 := by
    cases opts.sign with
    | none => exact Or.inl rfl
    | some z =>
      simp only [normSign]
      split_ifs with hz
      · exact hz
      · exact Or.inl rfl
  have hg : 0 < normSign opts.sign ∨ (normSign opts.sign < 0 ∧ 0 < stepVal s opts.step) := by
    rcases hns with h | h
    · exact Or.inl (by rw [h]; exact Int.zero_lt_one)
    · rcases hguard with hh | hh
      · rw [h] at hh; omega
      · refine Or.inr ⟨by rw [h]; decide, ?_⟩
        rw [hsv]; exact hh
  unfold changeStepT at hok
  rw [if_pos hsh, if_pos hg, hv] at hok
  dsimp only at hok
  rw [if_pos hstep] at hok
  have hna : ((s.runState ≠ RunState.running ∧ s.runState ≠ RunState.paused) ∨
      ((ellapsed t s : Int) < v)) ↔ ((ellapsed t s : Int) < v) := by
    rcases hact with h | h <;> simp [h]
  by_cases hc : (ellapsed t s : Int) < v
  · rw [if_pos (hna.mpr hc)] at hok
    injection hok with h
    subst h
    exact ⟨fun hle => absurd hle (not_le.mpr hc), fun _ => rfl⟩
  · rw [if_neg (fun hcon => hc (hna.mp hcon))] at hok
    injection hok with h
    subst h
    exact ⟨fun _ => rfl, fun hlt => absurd hlt hc⟩

/-- Counterexample to C2 as stated: on the concrete running timer with 500 ms
elapsed, shrinking the session to 300 ms is silently dropped — the state is
unchanged and no event is published — yet the call returns `true`, not
`false` as the claim asserts. -/
theorem changeStep_drop_returns_true :
    changeStepT cDropOpts 500 cRunning = Except.ok (cRunning, [], true) ∧
    ellapsed 500 cRunning = 500 ∧ cRunning.runState = RunState.running := by
  refine ⟨?_, ?_, ?_⟩ <;> decide

/-- Witness for the amended C2 at the concrete dropped shrink: the drop
branch applies and yields the unchanged state with return value `true`. -/
theorem changeStep_session_guard_witness :
    changeStepT cDropOpts 500 cRunning = Except.ok (cRunning, [], true) ∧
    (cRunning, ([] : List Ev), true) = (cRunning, [], true) :=
  ⟨by decide, (changeStep_session_guard cDropOpts 500 cRunning 300 (cRunning, [], true)
      rfl (Or.inl (by decide)) (Or.inl (by decide)) (by decide) (by decide)).1 (by decide)⟩
